import Mathlib

/-!
Shallow embedding of the HTTP client wrapper of `src/utils/http/index.ts`
(retry logic, response interceptor, unauthorized debounce, download and
upload helpers), together with theorems settling the specification claims.

JavaScript values that can be either a number or a string at runtime
(the `code` field of `HttpError`, due to the `as unknown as number` cast
in the response interceptor) are modelled by the sum type `Code`; strict
equality (`===` / `Array.prototype.includes`) never identifies a number
with a string, which the derived `DecidableEq` on `Code` reproduces.
Time-only behaviour (the fixed retry delay, the real-time length of the
debounce window) is not modelled; the debounce window is modelled by the
absence of the timer-reset event in an invocation sequence.
-/

/-- A JavaScript status-code-like value: a number or a string.  Strict
equality across the two shapes is always false, as in JS. -/
inductive Code where
  | num (n : Nat)
  | str (s : String)
deriving DecidableEq, Repr

/-- Modelled from the spec: the `HttpError` class of the missing module
`src/utils/http/error.ts` — "{message: string, code: status-code-like
value}" (§3 of the spec). -/
structure HttpError where
  message : String
  code : Code
deriving DecidableEq, Repr

/-- An arbitrary thrown value: either an `HttpError` instance or any
other error (the `instanceof HttpError` test discriminates them). -/
inductive Err where
  | http (e : HttpError)
  | generic (tag : String)
deriving DecidableEq, Repr

/-- Modelled from the spec: the numeric status constants of the missing
module `src/utils/http/status.ts`.  The spec names `unauthorized` (401)
and the retryable set `{request-timeout (408), internal-server-error
(500), bad-gateway (502), service-unavailable (503), gateway-timeout
(504)}`; `error` is a generic error status whose exact number no claim
depends on. -/
def ApiStatus.unauthorized : Nat := 401

/-- Modelled from the spec: request-timeout status. -/
def ApiStatus.requestTimeout : Nat := 408

/-- Modelled from the spec: internal-server-error status. -/
def ApiStatus.internalServerError : Nat := 500

/-- Modelled from the spec: bad-gateway status. -/
def ApiStatus.badGateway : Nat := 502

/-- Modelled from the spec: service-unavailable status. -/
def ApiStatus.serviceUnavailable : Nat := 503

/-- Modelled from the spec: gateway-timeout status. -/
def ApiStatus.gatewayTimeout : Nat := 504

/-- Modelled from the spec: generic error status (its number is not
pinned by the spec; no claim depends on it). -/
def ApiStatus.error : Nat := 500

/-- `shouldRetry` (src/utils/http/index.ts:98-106): membership of the
status code in the retryable list, by JS strict equality
(`Array.prototype.includes`).  At runtime the argument may be a string
despite the `number` annotation, hence the `Code` parameter. -/
def shouldRetry (statusCode : Code) : Bool :=
  [Code.num ApiStatus.requestTimeout,
   Code.num ApiStatus.internalServerError,
   Code.num ApiStatus.badGateway,
   Code.num ApiStatus.serviceUnavailable,
   Code.num ApiStatus.gatewayTimeout].contains statusCode

/-- The retryable statuses as the spec words them: the plain numbers
408, 500, 502, 503, 504.  Stated separately from `shouldRetry` so the
implementation's strict-equality check can be compared against it. -/
def specRetryableStatusNumbers : List Nat := [408, 500, 502, 503, 504]

/-- The per-call configuration surface of `HttpConfig`
(src/utils/http/index.ts:9-18); absent optional fields are `none`. -/
structure HttpConfig where
  showErrorMessage : Option Bool := none
  showSuccessMessage : Option Bool := none
  enableRetry : Option Bool := none
  retryCount : Option Nat := none
deriving DecidableEq, Repr

/-- `MAX_RETRIES` (src/utils/http/index.ts:39). -/
def MAX_RETRIES : Nat := 0

/-- The retry guard of `retryRequest` (src/utils/http/index.ts:240):
`enableRetry && retries > 0 && error instanceof HttpError &&
shouldRetry(error.code)`. -/
def retryCondition (enable : Bool) (retries : Nat) (e : Err) : Bool :=
  enable && decide (0 < retries) &&
    (match e with
     | .http he => shouldRetry he.code
     | .generic _ => false)

/-- The recursion of `retryRequest` (src/utils/http/index.ts:230-246).
`results i` is the outcome of the `i`-th call of the underlying
`request`; the function returns the final outcome together with the
total number of attempts performed.  The fixed `RETRY_DELAY` wait is
time-only and not modelled. -/
def runRetry (enable : Bool) (results : Nat → Except Err α) :
    Nat → Nat → Except Err α × Nat
  | idx, retries =>
    match results idx with
    | .ok v => (.ok v, 1)
    | .error e =>
      if retryCondition enable retries e then
        match retries with
        | 0 => (.error e, 1)
        | r + 1 =>
          let p := runRetry enable results (idx + 1) r
          (p.1, p.2 + 1)
      else
        (.error e, 1)

/-- `retryRequest` entry point (src/utils/http/index.ts:230-234):
retries default to `config.retryCount ?? MAX_RETRIES` and retry is
enabled unless `enableRetry` is explicitly `false`. -/
def retryRequest (cfg : HttpConfig) (results : Nat → Except Err α) :
    Except Err α × Nat :=
  runRetry (decide (cfg.enableRetry ≠ some false)) results 0
    (cfg.retryCount.getD MAX_RETRIES)

/-- Modelled from the spec: localized message strings (`$t(...)` of the
external localization module, §6) are modelled by their keys. -/
def unauthorizedMsg : String := "httpMsg.unauthorized"

/-- Modelled from the spec: localization key for a failed request. -/
def requestFailedMsg : String := "httpMsg.requestFailed"

/-- Modelled from the spec: localization key for a failed download. -/
def downloadFailedMsg : String := "httpMsg.downloadFailed"

/-- The process-wide unauthorized-debounce state
(src/utils/http/index.ts:43-44): the `isUnauthorizedErrorShown` flag and
whether the `unauthorizedTimer` debounce timer is pending. -/
structure UnauthState where
  shown : Bool
  timerArmed : Bool
deriving DecidableEq, Repr

/-- The initial debounce state: flag `false`, no pending timer. -/
def initialUnauthState : UnauthState := ⟨false, false⟩

/-- One invocation of `handleUnauthorizedError`
(src/utils/http/index.ts:68-83): the error it throws, the debounce state
afterwards, and how many logout actions it scheduled and user-facing
notifications it showed (each 0 or 1).  `showError(error, true)` of the
missing error module is modelled, from the spec, as showing exactly one
notification. -/
structure UnauthResult where
  thrown : HttpError
  state : UnauthState
  logouts : Nat
  notifications : Nat
deriving DecidableEq, Repr

/-- `handleUnauthorizedError` (src/utils/http/index.ts:68-83).  The
argument models the optional `message` parameter, with the JS falsy
check `message || $t('httpMsg.unauthorized')` covering both an absent
argument and an empty string. -/
def handleUnauthorizedError (message : Option String) (st : UnauthState) :
    UnauthResult :=
  let msg :=
    match message with
    | some s => if s = "" then unauthorizedMsg else s
    | none => unauthorizedMsg
  let error : HttpError := ⟨msg, .num ApiStatus.unauthorized⟩
  if st.shown = false then
    ⟨error, ⟨true, true⟩, 1, 1⟩
  else
    ⟨error, st, 0, 0⟩

/-- A sequence of unauthorized-handler invocations with no intervening
timer expiry (all within one debounce window): returns the final state
and the total logouts scheduled and notifications shown. -/
def runUnauthorizedSeq : List (Option String) → UnauthState →
    UnauthState × Nat × Nat
  | [], st => (st, 0, 0)
  | m :: ms, st =>
    let r := handleUnauthorizedError m st
    let rest := runUnauthorizedSeq ms r.state
    (rest.1, r.logouts + rest.2.1, r.notifications + rest.2.2)

/-- The response envelope `{ code, msg, data }` (external contract,
spec §3); `code` is a string on the wire. -/
structure Envelope (α : Type) where
  code : String
  msg : String
  data : α
deriving DecidableEq, Repr

/-- Outcome of the fulfilled response interceptor on an envelope. -/
structure InterceptResult (α : Type) where
  result : Except Err (Envelope α)
  state : UnauthState
  logouts : Nat
  notifications : Nat

/-- The fulfilled response interceptor on a non-blob response
(src/utils/http/index.ts:178-193): `code === '0'` passes the response
through; `code === '401'` invokes the unauthorized handler (which always
throws); any other code throws an `HttpError` whose code is
`code.toString()` — still the envelope's *string* despite the
`as unknown as number` cast. -/
def interceptResponse (env : Envelope α) (st : UnauthState) :
    InterceptResult α :=
  if env.code = "0" then
    ⟨.ok env, st, 0, 0⟩
  else if env.code = "401" then
    let r := handleUnauthorizedError (some env.msg) st
    ⟨.error (.http r.thrown), r.state, r.logouts, r.notifications⟩
  else
    ⟨.error (.http ⟨if env.msg = "" then requestFailedMsg else env.msg,
        .str env.code⟩), st, 0, 0⟩

/-- The base `request` function (src/utils/http/index.ts:205-223) on the
outcome the interceptor chain delivered.  Returns the caller-visible
result, the success message shown (if any), and the error notification
shown (if any): `showError(error, showMsg)` of the missing error module
is modelled, from the spec, as showing the notification iff `showMsg`
("callers may opt out of automatic error notification per call"). -/
def request (cfg : HttpConfig) (outcome : Except Err (Envelope α)) :
    Except Err α × Option String × Option HttpError :=
  match outcome with
  | .ok env =>
    (.ok env.data,
     if cfg.showSuccessMessage = some true ∧ env.msg ≠ "" then some env.msg
     else none,
     none)
  | .error e =>
    match e with
    | .http he =>
      if he.code ≠ Code.num ApiStatus.unauthorized then
        (.error e, none,
         if cfg.showErrorMessage ≠ some false then some he else none)
      else
        (.error e, none, none)
    | .generic _ => (.error e, none, none)


/-- `Math.round(num / den)` for naturals with `den > 0` (JS rounds half
up, i.e. `floor(x + 1/2)`), computed exactly:
`(2 * num + den) / (2 * den)` in integer division. -/
def jsRound (num den : Nat) : Nat := (2 * num + den) / (2 * den)

/-- The progress value of the download/upload progress callbacks
(src/utils/http/index.ts:268-275 and 337-344):
`progressEvent.total ? Math.round((loaded * 100) / total) : 0`.
`total` is `none` when unknown; the JS truthy test also sends a zero
total to the `0` branch.  The float division of the source is modelled
exactly; the counterexample below is far from any rounding boundary. -/
def progressValue (loaded : Nat) (total : Option Nat) : Nat :=
  match total with
  | some t => if t ≠ 0 then jsRound (loaded * 100) t else 0
  | none => 0

/-- The spec's wording of the progress computation:
`floor(loaded / total × 100)` when the total is known, else 0.  Stated
separately so it can be compared with `progressValue`. -/
def specFloorProgress (loaded : Nat) (total : Option Nat) : Nat :=
  match total with
  | some t => if t ≠ 0 then loaded * 100 / t else 0
  | none => 0

/-- Value of a hex digit, for percent-decoding. -/
def hexDigitVal (c : Char) : Option Nat :=
  if '0' ≤ c ∧ c ≤ '9' then some (c.toNat - '0'.toNat)
  else if 'a' ≤ c ∧ c ≤ 'f' then some (c.toNat - 'a'.toNat + 10)
  else if 'A' ≤ c ∧ c ≤ 'F' then some (c.toNat - 'A'.toNat + 10)
  else none

/-- `decodeURIComponent` modelled for the ASCII range: each `%XX` hex
pair becomes the character with that code; characters outside percent
escapes pass through unchanged (which is exactly what the builtin does
on strings without `%`). -/
def percentDecodeList : List Char → List Char
  | '%' :: h1 :: h2 :: rest =>
    match hexDigitVal h1, hexDigitVal h2 with
    | some a, some b => Char.ofNat (16 * a + b) :: percentDecodeList rest
    | _, _ => '%' :: h1 :: h2 :: percentDecodeList rest
  | c :: rest => c :: percentDecodeList rest
  | [] => []

/-- `decodeURIComponent` on a string, via `percentDecodeList`. -/
def percentDecode (s : String) : String := String.mk (percentDecodeList s.data)

/-- Case-insensitive literal match: consume `pat` from the front of `s`
ignoring case, returning the rest on success. -/
def dropCaseless : List Char → List Char → Option (List Char)
  | [], s => some s
  | _ :: _, [] => none
  | p :: ps, c :: cs =>
    if p.toLower = c.toLower then dropCaseless ps cs else none

/-- The single-quote character, written by code point to keep character
literals simple. -/
def singleQuoteChar : Char := Char.ofNat 39

/-- The character class of the capture group of the filename regex:
everything but semicolon, CR, LF and the two quote characters. -/
def isCaptureChar (c : Char) : Bool :=
  !(c = ';' ∨ c = '\r' ∨ c = '\n' ∨ c = '"' ∨ c = singleQuoteChar)

/-- Greedy run of capture characters: the capture group
`([^;\r\n"']*)`. -/
def takeCaptureRun : List Char → List Char
  | [] => []
  | c :: cs => if isCaptureChar c then c :: takeCaptureRun cs else []

/-- Greedy `['"]*`: drop leading single/double quotes. -/
def dropQuoteRun : List Char → List Char
  | [] => []
  | c :: cs =>
    if c = singleQuoteChar ∨ c = '"' then dropQuoteRun cs else c :: cs

/-- One attempt of the regex
`/filename\*?=['"]?(?:UTF-\d['"]*)?([^;\r\n"']*)['"]?;?/i`
(src/utils/http/index.ts:113) anchored at the head of the list,
returning the capture group on success.  After `filename\*?=` every
remaining component is nullable, so the greedy left-to-right walk below
is exactly the backtracking regex semantics. -/
def matchFilenameRegexAt (s : List Char) : Option (List Char) :=
  match dropCaseless ['f', 'i', 'l', 'e', 'n', 'a', 'm', 'e'] s with
  | none => none
  | some r1 =>
    let r2? : Option (List Char) :=
      match r1 with
      | '*' :: '=' :: rest => some rest
      | '=' :: rest => some rest
      | _ => none
    match r2? with
    | none => none
    | some r2 =>
      let r3 := match r2 with
        | c :: rest => if c = singleQuoteChar ∨ c = '"' then rest else r2
        | [] => r2
      let r4 := match dropCaseless ['u', 't', 'f', '-'] r3 with
        | some (d :: rest) => if d.isDigit then dropQuoteRun rest else r3
        | _ => r3
      some (takeCaptureRun r4)

/-- Leftmost regex match: try every start position, as
`String.prototype.match` does. -/
def scanForFilename : List Char → Option (List Char)
  | [] => none
  | c :: cs =>
    match matchFilenameRegexAt (c :: cs) with
    | some cap => some cap
    | none => scanForFilename cs

/-- `getFilenameFromResponse` (src/utils/http/index.ts:109-119): parse
the `content-disposition` header through the regex, percent-decode a
non-empty capture, otherwise fall back to ``download_`` plus the current
timestamp (`now` models `Date.now()`).  The JS truthy test on the header
sends an empty string to the fallback as well. -/
def getFilenameFromResponse (contentDisposition : Option String) (now : Nat) :
    String :=
  let fallback := "download_" ++ toString now
  match contentDisposition with
  | some cd =>
    if cd = "" then fallback
    else
      match scanForFilename cd.data with
      | some cap => if cap ≠ [] then percentDecode (String.mk cap) else fallback
      | none => fallback
  | none => fallback

/-- The blob of a download response, with the fields the error path
reads: its declared content type, and — when its text parses as a JSON
envelope — the `msg` and `code` fields thereof (`none` when absent; a
JSON code may be a number or a string). -/
structure DlBlob where
  type : String
  jsonMsg : Option String
  jsonCode : Option Code
deriving DecidableEq, Repr

/-- A download response: the blob plus the `content-disposition`
header. -/
structure DlResponse where
  blob : DlBlob
  contentDisposition : Option String
deriving DecidableEq, Repr

/-- JS truthiness of the parsed `error.code` value: absent, `0` and the
empty string are falsy. -/
def codeTruthy : Option Code → Bool
  | some (.num n) => n ≠ 0
  | some (.str s) => s ≠ ""
  | none => false

/-- The post-response part of `download` (src/utils/http/index.ts:278-295):
if the blob's declared type is `application/json` the blob is an error
envelope — build an `HttpError` from its `msg`/`code` (with fallbacks on
falsy values), show it and reject; otherwise resolve the filename
(explicit override first) and trigger the browser save.  Returns the
outcome, the filename passed to `triggerDownload` (`none` = not
invoked), and the error notification shown. -/
def download (filenameOverride : Option String) (resp : DlResponse)
    (now : Nat) : Except Err Unit × Option String × Option HttpError :=
  if resp.blob.type = "application/json" then
    let msg := match resp.blob.jsonMsg with
      | some s => if s = "" then downloadFailedMsg else s
      | none => downloadFailedMsg
    let code := match resp.blob.jsonCode with
      | some c => if codeTruthy (some c) then c else Code.num ApiStatus.error
      | none => Code.num ApiStatus.error
    let e : HttpError := ⟨msg, code⟩
    (.error (.http e), none, some e)
  else
    let fn := filenameOverride.getD
      (getFilenameFromResponse resp.contentDisposition now)
    (.ok (), some fn, none)

/-- A value appended to the multipart `FormData` body: a file or a plain
field value (files are modelled by an opaque string identity). -/
inductive FormValue where
  | file (f : String)
  | str (v : String)
deriving DecidableEq, Repr

/-- The `FormData` construction of `upload`
(src/utils/http/index.ts:312-329): a file list is appended under
`file0`, `file1`, … in order; a single file under `file`; then every
entry of the optional `fields` record under its own key. -/
def buildFormData (file : String ⊕ List String)
    (fields : List (String × String)) : List (String × FormValue) :=
  (match file with
   | .inl f => [("file", FormValue.file f)]
   | .inr fs => fs.enum.map fun p => ("file" ++ toString p.1, FormValue.file p.2))
  ++ fields.map fun kv => (kv.1, FormValue.str kv.2)

/-! ### Helper lemmas -/

theorem retryCondition_zero (en : Bool) (e : Err) :
    retryCondition en 0 e = false := by
  simp [retryCondition]

theorem runRetry_eq (en : Bool) (results : Nat → Except Err α)
    (idx retries : Nat) :
    runRetry en results idx retries =
      match results idx with
      | .ok v => (.ok v, 1)
      | .error e =>
        if retryCondition en retries e then
          let p := runRetry en results (idx + 1) (retries - 1)
          (p.1, p.2 + 1)
        else (.error e, 1) := by
  rw [runRetry]
  cases results idx with
  | ok v => rfl
  | error e =>
    dsimp only
    by_cases hc : retryCondition en retries e = true
    · rw [if_pos hc, if_pos hc]
      cases retries with
      | zero => rw [retryCondition_zero] at hc; exact absurd hc (by simp)
      | succ r => rfl
    · rw [if_neg hc, if_neg hc]

theorem runRetry_attempts_le (en : Bool) (results : Nat → Except Err α) :
    ∀ (r idx : Nat), (runRetry en results idx r).2 ≤ r + 1 := by
  intro r
  induction r with
  | zero =>
    intro idx
    rw [runRetry_eq]
    cases hres : results idx with
    | ok v => simp
    | error e => dsimp only; rw [retryCondition_zero]; simp
  | succ r ih =>
    intro idx
    rw [runRetry_eq]
    cases hres : results idx with
    | ok v => simp
    | error e =>
      dsimp only
      by_cases hc : retryCondition en (r + 1) e = true
      · rw [if_pos hc]
        have h := ih (idx + 1)
        show (runRetry en results (idx + 1) (r + 1 - 1)).2 + 1 ≤ r + 1 + 1
        simpa using h
      · rw [if_neg hc]
        simp

theorem runRetry_all_fail (en : Bool) (results : Nat → Except Err α)
    (hfail : ∀ i, ∃ e, results i = .error e) :
    ∀ (r idx : Nat), ∃ e, (runRetry en results idx r).1 = .error e := by
  intro r
  induction r with
  | zero =>
    intro idx
    rw [runRetry_eq]
    obtain ⟨e, he⟩ := hfail idx
    rw [he]
    dsimp only
    rw [retryCondition_zero]
    exact ⟨e, by simp⟩
  | succ r ih =>
    intro idx
    rw [runRetry_eq]
    obtain ⟨e, he⟩ := hfail idx
    rw [he]
    dsimp only
    by_cases hc : retryCondition en (r + 1) e = true
    · rw [if_pos hc]
      obtain ⟨e2, he2⟩ := ih (idx + 1)
      exact ⟨e2, by simpa using he2⟩
    · rw [if_neg hc]
      exact ⟨e, rfl⟩

/-- C1: under `enableRetry !== false` and `retryCount = N`, when every
attempt fails with a retryable `HttpError`, the retry wrapper performs
at most `N + 1` total attempts of the underlying request and rejects. -/
theorem retry_bounded_attempts (cfg : HttpConfig)
    (results : Nat → Except Err α) (N : Nat)
    (hE : cfg.enableRetry ≠ some false) (hN : cfg.retryCount = some N)
    (hfail : ∀ i, ∃ he : HttpError,
      results i = .error (.http he) ∧ shouldRetry he.code = true) :
    (∃ e, (retryRequest cfg results).1 = .error e) ∧
      (retryRequest cfg results).2 ≤ N + 1 := by
  have hfail' : ∀ i, ∃ e, results i = .error e := by
    intro i
    obtain ⟨he, h1, _⟩ := hfail i
    exact ⟨.http he, h1⟩
  unfold retryRequest
  rw [hN]
  exact ⟨runRetry_all_fail _ results hfail' _ 0,
    runRetry_attempts_le _ results _ 0⟩

/-- Witness for `retry_bounded_attempts`: `retryCount = 2`, every
attempt failing with a retryable 500 error gives at most 3 attempts. -/
theorem retry_bounded_attempts_witness :
    (∃ e, (retryRequest (α := Unit) ⟨none, none, none, some 2⟩
        (fun _ => .error (.http ⟨"boom", .num 500⟩))).1 = .error e) ∧
      (retryRequest (α := Unit) ⟨none, none, none, some 2⟩
        (fun _ => .error (.http ⟨"boom", .num 500⟩))).2 ≤ 2 + 1 :=
  retry_bounded_attempts _ _ 2 (by decide) rfl
    (fun _ => ⟨⟨"boom", .num 500⟩, rfl, by decide⟩)

theorem shouldRetry_num_iff (n : Nat) :
    shouldRetry (.num n) = true ↔ n ∈ specRetryableStatusNumbers := by
  simp [shouldRetry, specRetryableStatusNumbers, ApiStatus.requestTimeout,
    ApiStatus.internalServerError, ApiStatus.badGateway,
    ApiStatus.serviceUnavailable, ApiStatus.gatewayTimeout]

theorem shouldRetry_str (s : String) : shouldRetry (.str s) = false := by
  simp [shouldRetry]

/-- C2 counterexample: the response interceptor turns an envelope with
`code = "500"` into an `HttpError` whose code is the *string* `"500"`
(the `as unknown as number` cast does not convert it); although `"500"`
denotes status 500, which is in the retryable set, the retry wrapper
performs exactly one attempt — no retry — even with `retryCount = 1`
and retry enabled. -/
theorem interceptor_error_not_retried :
    (interceptResponse (⟨"500", "server error", ()⟩ : Envelope Unit)
        initialUnauthState).result
      = .error (.http ⟨"server error", .str "500"⟩) ∧
    toString (500 : Nat) = "500" ∧
    500 ∈ specRetryableStatusNumbers ∧
    retryRequest (α := Unit) ⟨none, none, none, some 1⟩
        (fun _ => .error (.http ⟨"server error", .str "500"⟩))
      = (.error (.http ⟨"server error", .str "500"⟩), 1) := by
  refine ⟨rfl, by decide, by decide, ?_⟩
  show runRetry _ _ 0 1 = _
  rw [runRetry_eq]
  rfl

/-- C2 (amended): for every failed attempt, a retry is performed
exactly when retry is enabled, retries remain, and the error is an
`HttpError` whose code is *strictly* (same JS type) one of the numbers
408, 500, 502, 503, 504; every other error — in particular every error
the response interceptor builds from a response-envelope code, whose
code is a string — propagates immediately with no further attempt. -/
theorem retry_dichotomy (enable : Bool) (results : Nat → Except Err α)
    (idx retries : Nat) (e : Err) (h : results idx = .error e) :
    (retryCondition enable retries e = true →
      (runRetry enable results idx retries).1
          = (runRetry enable results (idx + 1) (retries - 1)).1 ∧
        (runRetry enable results idx retries).2
          = (runRetry enable results (idx + 1) (retries - 1)).2 + 1) ∧
    (retryCondition enable retries e = false →
      runRetry enable results idx retries = (.error e, 1)) ∧
    (retryCondition enable retries e = true ↔
      enable = true ∧ 0 < retries ∧
        ∃ he n, e = .http he ∧ he.code = .num n ∧
          n ∈ specRetryableStatusNumbers) ∧
    (∀ (env : Envelope Unit) (st : UnauthState),
      env.code ≠ "0" → env.code ≠ "401" →
      ∃ he, (interceptResponse env st).result = .error (.http he) ∧
        ∀ (en : Bool) (r : Nat), retryCondition en r (.http he) = false) := by
  refine ⟨?_, ?_, ?_, ?_⟩
  · intro hc
    rw [runRetry_eq, h]
    dsimp only
    rw [if_pos hc]
    exact ⟨rfl, rfl⟩
  · intro hc
    rw [runRetry_eq, h]
    dsimp only
    rw [if_neg (by simp [hc])]
  · constructor
    · intro hc
      cases e with
      | http he =>
        simp only [retryCondition, Bool.and_eq_true, decide_eq_true_eq] at hc
        obtain ⟨⟨h1, h2⟩, h3⟩ := hc
        cases hcode : he.code with
        | num n =>
          rw [hcode] at h3
          exact ⟨h1, h2, he, n, rfl, hcode, (shouldRetry_num_iff n).mp h3⟩
        | str s =>
          rw [hcode, shouldRetry_str] at h3
          exact absurd h3 (by simp)
      | generic t => simp [retryCondition] at hc
    · rintro ⟨h1, h2, he, n, rfl, hcode, hmem⟩
      simp only [retryCondition, Bool.and_eq_true, decide_eq_true_eq]
      refine ⟨⟨h1, h2⟩, ?_⟩
      rw [hcode]
      exact (shouldRetry_num_iff n).mpr hmem
  · intro env st h0 h401
    refine ⟨⟨if env.msg = "" then requestFailedMsg else env.msg,
      .str env.code⟩, ?_, ?_⟩
    · simp [interceptResponse, h0, h401]
    · intro en r
      simp [retryCondition, shouldRetry_str]

/-- Witness for `retry_dichotomy` at a concrete failed attempt (a
non-`HttpError` failure with one retry remaining). -/
theorem retry_dichotomy_witness :
    ((retryCondition true 1 (.generic "network") = true →
      (runRetry true (fun _ => (.error (.generic "network") : Except Err Unit)) 0 1).1
          = (runRetry true (fun _ => (.error (.generic "network") : Except Err Unit)) (0 + 1) (1 - 1)).1 ∧
        (runRetry true (fun _ => (.error (.generic "network") : Except Err Unit)) 0 1).2
          = (runRetry true (fun _ => (.error (.generic "network") : Except Err Unit)) (0 + 1) (1 - 1)).2 + 1) ∧
    (retryCondition true 1 (.generic "network") = false →
      runRetry true (fun _ => (.error (.generic "network") : Except Err Unit)) 0 1
        = (.error (.generic "network"), 1)) ∧
    (retryCondition true 1 (.generic "network") = true ↔
      true = true ∧ 0 < 1 ∧
        ∃ he n, Err.generic "network" = .http he ∧ he.code = .num n ∧
          n ∈ specRetryableStatusNumbers) ∧
    (∀ (env : Envelope Unit) (st : UnauthState),
      env.code ≠ "0" → env.code ≠ "401" →
      ∃ he, (interceptResponse env st).result = .error (.http he) ∧
        ∀ (en : Bool) (r : Nat), retryCondition en r (.http he) = false)) :=
  retry_dichotomy true (fun _ => (.error (.generic "network") : Except Err Unit))
    0 1 (.generic "network") rfl

theorem runUnauthorizedSeq_cons (m : Option String)
    (ms : List (Option String)) (st : UnauthState) :
    runUnauthorizedSeq (m :: ms) st =
      ((runUnauthorizedSeq ms (handleUnauthorizedError m st).state).1,
       (handleUnauthorizedError m st).logouts +
         (runUnauthorizedSeq ms (handleUnauthorizedError m st).state).2.1,
       (handleUnauthorizedError m st).notifications +
         (runUnauthorizedSeq ms (handleUnauthorizedError m st).state).2.2) :=
  rfl

theorem handleUnauthorizedError_suppressed (m : Option String)
    (st : UnauthState) (h : st.shown = true) :
    (handleUnauthorizedError m st).state = st ∧
      (handleUnauthorizedError m st).logouts = 0 ∧
      (handleUnauthorizedError m st).notifications = 0 := by
  refine ⟨?_, ?_, ?_⟩ <;> simp [handleUnauthorizedError, h]

theorem handleUnauthorizedError_fresh (m : Option String)
    (st : UnauthState) (h : st.shown = false) :
    (handleUnauthorizedError m st).state = ⟨true, true⟩ ∧
      (handleUnauthorizedError m st).logouts = 1 ∧
      (handleUnauthorizedError m st).notifications = 1 := by
  refine ⟨?_, ?_, ?_⟩ <;> simp [handleUnauthorizedError, h]

theorem runUnauthorizedSeq_suppressed (ms : List (Option String))
    (st : UnauthState) (h : st.shown = true) :
    runUnauthorizedSeq ms st = (st, 0, 0) := by
  induction ms with
  | nil => rfl
  | cons m ms ih =>
    obtain ⟨h1, h2, h3⟩ := handleUnauthorizedError_suppressed m st h
    rw [runUnauthorizedSeq_cons, h1, h2, h3, ih]
    rfl

/-- C3: starting from the initial debounce state (flag false, no
pending timer), any sequence of two or more unauthorized-handler
invocations within one debounce window schedules exactly one deferred
logout and shows exactly one notification; from the moment the flag is
set, every further invocation is suppressed. -/
theorem unauthorized_debounce_once (msgs : List (Option String))
    (h : 2 ≤ msgs.length) :
    (runUnauthorizedSeq msgs initialUnauthState).2.1 = 1 ∧
    (runUnauthorizedSeq msgs initialUnauthState).2.2 = 1 ∧
    ∀ (ms : List (Option String)) (st : UnauthState), st.shown = true →
      (runUnauthorizedSeq ms st).2.1 = 0 ∧
        (runUnauthorizedSeq ms st).2.2 = 0 := by
  have hsup : ∀ (ms : List (Option String)) (st : UnauthState),
      st.shown = true → (runUnauthorizedSeq ms st).2.1 = 0 ∧
        (runUnauthorizedSeq ms st).2.2 = 0 := by
    intro ms st hst
    rw [runUnauthorizedSeq_suppressed ms st hst]
    exact ⟨rfl, rfl⟩
  cases msgs with
  | nil => simp at h
  | cons m ms =>
    obtain ⟨h1, h2, h3⟩ :=
      handleUnauthorizedError_fresh m initialUnauthState rfl
    rw [runUnauthorizedSeq_cons, h1, h2, h3,
      runUnauthorizedSeq_suppressed ms ⟨true, true⟩ rfl]
    exact ⟨rfl, rfl, hsup⟩

/-- Witness for `unauthorized_debounce_once`: two 401s in one window. -/
theorem unauthorized_debounce_once_witness :
    (runUnauthorizedSeq [none, some "expired"] initialUnauthState).2.1 = 1 ∧
    (runUnauthorizedSeq [none, some "expired"] initialUnauthState).2.2 = 1 ∧
    ∀ (ms : List (Option String)) (st : UnauthState), st.shown = true →
      (runUnauthorizedSeq ms st).2.1 = 0 ∧
        (runUnauthorizedSeq ms st).2.2 = 0 :=
  unauthorized_debounce_once [none, some "expired"] (by decide)

/-- C4: a response whose envelope code is the string `"0"` passes the
interceptor unchanged with no notification, and the base request
resolves with the envelope's `data` field and shows no error
notification. -/
theorem success_envelope_resolves_data (env : Envelope α)
    (cfg : HttpConfig) (st : UnauthState) (h : env.code = "0") :
    (interceptResponse env st).result = .ok env ∧
    (interceptResponse env st).notifications = 0 ∧
    (request cfg (interceptResponse env st).result).1 = .ok env.data ∧
    (request cfg (interceptResponse env st).result).2.2 = none := by
  have hres : interceptResponse env st = ⟨.ok env, st, 0, 0⟩ := by
    rw [interceptResponse, if_pos h]
  rw [hres]
  exact ⟨rfl, rfl, rfl, rfl⟩

/-- Witness for `success_envelope_resolves_data`. -/
theorem success_envelope_resolves_data_witness :
    (interceptResponse (⟨"0", "done", (42 : Nat)⟩ : Envelope Nat)
        initialUnauthState).result = .ok ⟨"0", "done", 42⟩ ∧
    (interceptResponse (⟨"0", "done", (42 : Nat)⟩ : Envelope Nat)
        initialUnauthState).notifications = 0 ∧
    (request ⟨none, none, none, none⟩
        (interceptResponse (⟨"0", "done", (42 : Nat)⟩ : Envelope Nat)
          initialUnauthState).result).1 = .ok 42 ∧
    (request ⟨none, none, none, none⟩
        (interceptResponse (⟨"0", "done", (42 : Nat)⟩ : Envelope Nat)
          initialUnauthState).result).2.2 = none :=
  success_envelope_resolves_data ⟨"0", "done", 42⟩ ⟨none, none, none, none⟩
    initialUnauthState rfl

/-- C5 counterexample: at `loaded = 2`, `total = 3` the progress
callbacks receive `Math.round(200 / 3) = 67`, not
`floor(2 / 3 × 100) = 66` as the claim states. -/
theorem progress_round_vs_floor :
    progressValue 2 (some 3) = 67 ∧ specFloorProgress 2 (some 3) = 66 ∧
    progressValue 2 (some 3) ≠ specFloorProgress 2 (some 3) := by
  decide

/-- C5 (amended): when the total size is known and positive, the
reported progress is `loaded/total × 100` rounded to the *nearest*
integer (halves rounded up) — characterised by the two inequalities
below — and when the total is unknown (or zero) the reported progress
is 0. -/
theorem progress_rounds_half_up (loaded t : Nat) (ht : 0 < t) :
    2 * t * progressValue loaded (some t) ≤ 2 * (loaded * 100) + t ∧
    2 * (loaded * 100) + t < 2 * t * progressValue loaded (some t) + 2 * t ∧
    progressValue loaded none = 0 ∧
    progressValue loaded (some 0) = 0 := by
  have htne : t ≠ 0 := by omega
  have hp : progressValue loaded (some t) = (2 * (loaded * 100) + t) / (2 * t) := by
    rw [progressValue]
    rw [if_pos htne]
    rfl
  have h1 := Nat.div_add_mod (2 * (loaded * 100) + t) (2 * t)
  have h2 : (2 * (loaded * 100) + t) % (2 * t) < 2 * t :=
    Nat.mod_lt _ (by omega)
  refine ⟨?_, ?_, rfl, rfl⟩ <;> rw [hp] <;> omega

/-- Witness for `progress_rounds_half_up` at `loaded = 2`,
`total = 3`. -/
theorem progress_rounds_half_up_witness :
    2 * 3 * progressValue 2 (some 3) ≤ 2 * (2 * 100) + 3 ∧
    2 * (2 * 100) + 3 < 2 * 3 * progressValue 2 (some 3) + 2 * 3 ∧
    progressValue 2 none = 0 ∧
    progressValue 2 (some 0) = 0 :=
  progress_rounds_half_up 2 3 (by decide)

/-- C6: when the received blob declares content type
`application/json`, `download` parses it as an error envelope and
rejects with an `HttpError` carrying the embedded message and code, and
`triggerDownload` is never invoked (the triggered-filename component is
`none`). -/
theorem download_json_blob_rejects (filenameOverride : Option String)
    (resp : DlResponse) (now : Nat) (m : String) (c : Code)
    (htype : resp.blob.type = "application/json")
    (hm : resp.blob.jsonMsg = some m) (hmne : m ≠ "")
    (hc : resp.blob.jsonCode = some c)
    (hct : codeTruthy (some c) = true) :
    download filenameOverride resp now
      = (.error (.http ⟨m, c⟩), none, some ⟨m, c⟩) := by
  rw [download, if_pos htype, hm, hc]
  dsimp only
  rw [if_neg hmne, if_pos hct]

/-- Witness for `download_json_blob_rejects`: a JSON error blob with an
embedded message and code. -/
theorem download_json_blob_rejects_witness :
    download none
        ⟨⟨"application/json", some "file missing", some (.str "404")⟩, none⟩ 0
      = (.error (.http ⟨"file missing", .str "404"⟩), none,
         some ⟨"file missing", .str "404"⟩) :=
  download_json_blob_rejects none
    ⟨⟨"application/json", some "file missing", some (.str "404")⟩, none⟩ 0
    "file missing" (.str "404") rfl rfl (by decide) rfl (by decide)

/-- C7: the multipart body built by `upload` contains, for a file list,
exactly the entries `file0 … file(n-1)` in list order followed by the
extra fields under their own names; a single file goes under the key
`file`. -/
theorem upload_formdata_shape (fs : List String)
    (fields : List (String × String)) (f : String) :
    (buildFormData (.inr fs) fields).length = fs.length + fields.length ∧
    (∀ i : Fin fs.length,
      (buildFormData (.inr fs) fields)[i.val]?
        = some ("file" ++ toString i.val, FormValue.file fs[i])) ∧
    (∀ j : Fin fields.length,
      (buildFormData (.inr fs) fields)[fs.length + j.val]?
        = some (fields[j].1, FormValue.str fields[j].2)) ∧
    buildFormData (.inl f) fields
      = ("file", FormValue.file f)
          :: fields.map (fun kv => (kv.1, FormValue.str kv.2)) := by
  refine ⟨?_, ?_, ?_, rfl⟩
  · simp [buildFormData]
  · intro i
    rw [buildFormData]
    rw [List.getElem?_append_left (by simpa using i.isLt)]
    rw [List.getElem?_map, List.getElem?_enum]
    rw [List.getElem?_eq_getElem i.isLt]
    rfl
  · intro j
    rw [buildFormData]
    rw [List.getElem?_append_right (by simp)]
    have hlen : fs.length + j.val - (fs.enum.map
        (fun p => ("file" ++ toString p.1, FormValue.file p.2))).length
        = j.val := by simp
    rw [hlen]
    rw [List.getElem?_map]
    rw [List.getElem?_eq_getElem j.isLt]
    rfl

/-- Witness for `upload_formdata_shape`: `file = [a, b]` yields keys
`file0` and `file1`. -/
theorem upload_formdata_shape_witness :
    (buildFormData (.inr ["a", "b"]) [("k", "v")])[0]?
        = some ("file" ++ toString 0, FormValue.file ["a", "b"][(⟨0, by decide⟩ : Fin 2)]) ∧
    (buildFormData (.inr ["a", "b"]) [("k", "v")])[1]?
        = some ("file" ++ toString 1, FormValue.file ["a", "b"][(⟨1, by decide⟩ : Fin 2)]) :=
  ⟨(upload_formdata_shape ["a", "b"] [("k", "v")] "z").2.1 ⟨0, by decide⟩,
   (upload_formdata_shape ["a", "b"] [("k", "v")] "z").2.1 ⟨1, by decide⟩⟩

/-- C8: with header `content-disposition: attachment;
filename="report.csv"` and no explicit override, the resolved download
filename is `report.csv`; with no header it is ``download_`` followed
by the current timestamp. -/
theorem filename_resolution (now : Nat) :
    getFilenameFromResponse (some "attachment; filename=\"report.csv\"") now
      = "report.csv" ∧
    getFilenameFromResponse none now = "download_" ++ toString now := by
  constructor
  · rfl
  · rfl

/-- Witness for `filename_resolution` at timestamp 1700000000000. -/
theorem filename_resolution_witness :
    getFilenameFromResponse (some "attachment; filename=\"report.csv\"")
        1700000000000 = "report.csv" ∧
    getFilenameFromResponse none 1700000000000
      = "download_" ++ toString 1700000000000 :=
  filename_resolution 1700000000000

/-- Attempt outcomes for the C9 counterexample: the first attempt fails
with a retryable 500 `HttpError`, the second with a different error. -/
def firstThenSecond : Nat → Except Err Unit := fun i =>
  if i = 0 then .error (.http ⟨"first", .num 500⟩)
  else .error (.generic "second")

/-- C9 counterexample: with `retryCount = 1`, a retryable first failure
and a different second failure, the retry wrapper rejects with the
error of the *last* attempt (`"second"`), not the error of the first
failing attempt (`"first"`). -/
theorem retry_rejects_last_not_first :
    firstThenSecond 0 = .error (.http ⟨"first", .num 500⟩) ∧
    firstThenSecond 1 = .error (.generic "second") ∧
    (retryRequest ⟨none, none, none, some 1⟩ firstThenSecond).2 = 2 ∧
    (retryRequest ⟨none, none, none, some 1⟩ firstThenSecond).1
      = .error (.generic "second") ∧
    (Err.generic "second") ≠ .http ⟨"first", .num 500⟩ := by
  have h1 : retryRequest ⟨none, none, none, some 1⟩ firstThenSecond
      = (.error (.generic "second"), 2) := by
    show runRetry true firstThenSecond 0 1 = _
    rw [runRetry_eq]
    have e0 : firstThenSecond 0 = .error (.http ⟨"first", .num 500⟩) := rfl
    rw [e0]
    dsimp only
    rw [if_pos (by decide)]
    rw [runRetry_eq]
    have e1 : firstThenSecond (0 + 1) = .error (.generic "second") := rfl
    rw [e1]
    dsimp only
    rw [if_neg (by decide)]
  exact ⟨rfl, rfl, by rw [h1], by rw [h1], by decide⟩

/-- C9 (amended): when retries are exhausted or a non-retryable error
occurs, the error rejected to the caller is propagated unmodified, and
it is the error of the *final* attempt performed. -/
theorem retry_rejects_final_attempt_error (enable : Bool)
    (results : Nat → Except Err α) (retries : Nat) :
    ∀ (idx n : Nat) (e : Err),
      runRetry enable results idx retries = (.error e, n) →
      1 ≤ n ∧ results (idx + (n - 1)) = .error e := by
  induction retries with
  | zero =>
    intro idx n e h
    rw [runRetry_eq] at h
    cases hres : results idx with
    | ok v => rw [hres] at h; simp at h
    | error e2 =>
      rw [hres] at h
      dsimp only at h
      rw [retryCondition_zero] at h
      simp only [Bool.false_eq_true, if_false, Prod.mk.injEq,
        Except.error.injEq] at h
      obtain ⟨rfl, rfl⟩ := h
      exact ⟨le_refl 1, by simpa using hres⟩
  | succ r ih =>
    intro idx n e h
    rw [runRetry_eq] at h
    cases hres : results idx with
    | ok v => rw [hres] at h; simp at h
    | error e2 =>
      rw [hres] at h
      dsimp only at h
      by_cases hc : retryCondition enable (r + 1) e2 = true
      · rw [if_pos hc] at h
        have h1 : (runRetry enable results (idx + 1) (r + 1 - 1)).1
            = .error e := congrArg Prod.fst h
        have h2 : (runRetry enable results (idx + 1) (r + 1 - 1)).2 + 1
            = n := congrArg Prod.snd h
        have hp : runRetry enable results (idx + 1) r
            = (.error e, (runRetry enable results (idx + 1) r).2) := by
          rw [← h1]
          rfl
        obtain ⟨hge, hlast⟩ := ih (idx + 1)
          ((runRetry enable results (idx + 1) r).2) e hp
        have hn : n = (runRetry enable results (idx + 1) r).2 + 1 := by
          rw [← h2]
          rfl
        constructor
        · omega
        · have harith : idx + (n - 1)
              = idx + 1 + ((runRetry enable results (idx + 1) r).2 - 1) := by
            omega
          rw [harith]
          exact hlast
      · rw [if_neg hc] at h
        simp only [Prod.mk.injEq, Except.error.injEq] at h
        obtain ⟨rfl, rfl⟩ := h
        exact ⟨le_refl 1, by simpa using hres⟩

/-- Witness for `retry_rejects_final_attempt_error`: a single
non-retryable failure is rejected as the error of attempt 0. -/
theorem retry_rejects_final_attempt_error_witness :
    1 ≤ 1 ∧ (fun _ => (.error (.generic "oops") : Except Err Unit)) (0 + (1 - 1))
      = .error (.generic "oops") :=
  retry_rejects_final_attempt_error true
    (fun _ => (.error (.generic "oops") : Except Err Unit)) 1 0 1
    (.generic "oops") (by rw [runRetry_eq]; rfl)

/-- C10: the base request shows an error notification exactly when the
failure is an `HttpError` whose code is not strictly the number 401 and
the call's `showErrorMessage` option is not `false`; for unauthorized
(401) `HttpError`s it never shows one, whatever `showErrorMessage`
is. -/
theorem request_error_notification_iff (cfg : HttpConfig)
    (outcome : Except Err (Envelope α)) :
    ((request cfg outcome).2.2 ≠ none ↔
      ∃ he, outcome = .error (.http he) ∧
        he.code ≠ Code.num ApiStatus.unauthorized ∧
        cfg.showErrorMessage ≠ some false) ∧
    ∀ he, outcome = .error (.http he) →
      he.code = Code.num ApiStatus.unauthorized →
      (request cfg outcome).2.2 = none := by
  constructor
  · cases outcome with
    | ok env => simp [request]
    | error e =>
      cases e with
      | http he =>
        by_cases h401 : he.code = Code.num ApiStatus.unauthorized
        · simp [request, h401]
        · by_cases hshow : cfg.showErrorMessage = some false
          · simp [request, h401, hshow]
          · simp [request, h401, hshow]
      | generic t => simp [request]
  · intro he hout h401
    subst hout
    simp [request, h401]

/-- Witness for `request_error_notification_iff` at a concrete failed
outcome (a 500 `HttpError` under the default configuration). -/
theorem request_error_notification_iff_witness :
    ((request (⟨none, none, none, none⟩ : HttpConfig)
        (.error (.http ⟨"boom", .num 500⟩) : Except Err (Envelope Unit))).2.2
          ≠ none ↔
      ∃ he, (.error (.http ⟨"boom", .num 500⟩) : Except Err (Envelope Unit))
          = .error (.http he) ∧
        he.code ≠ Code.num ApiStatus.unauthorized ∧
        (⟨none, none, none, none⟩ : HttpConfig).showErrorMessage
          ≠ some false) ∧
    ∀ he, (.error (.http ⟨"boom", .num 500⟩) : Except Err (Envelope Unit))
        = .error (.http he) →
      he.code = Code.num ApiStatus.unauthorized →
      (request (⟨none, none, none, none⟩ : HttpConfig)
        (.error (.http ⟨"boom", .num 500⟩) : Except Err (Envelope Unit))).2.2
          = none :=
  request_error_notification_iff ⟨none, none, none, none⟩
    (.error (.http ⟨"boom", .num 500⟩))
